import Mathlib

/-!
Verification of the DoersLaw intake wizard and analysis-result rendering
pipeline, shallowly embedded from
`src/frontend/src/pages/TalentDashboard.jsx` (the `IntakeFlow` component).

Conventions of the embedding:
* JS strings are Lean `String`; character-level scanning works on `String.data`.
* The JS object `answers` (keys = question ids, values = string or array of
  strings) is an association list `List (String × Answer)`; the JS spread
  update `{...answers, [k]: v}` is `setAns` (overwrite in place if the key
  exists, else append — this preserves JS object key order).
* The React component state (`currentQuestion`, `answers`, `isAnalyzing`,
  `analysisResult`, `error`) is the `Wizard` structure, extended with
  `pending` (the queue of scheduled `setTimeout` callbacks, with the values
  each closure captured at scheduling time) and `submitted` (the list of
  request payloads handed to `fetch`, for observation).
* The async `fetch` outcome is the `FetchResult` inductive; the synchronous
  prefix of a submission (set loading, clear error, issue the request) and
  the continuation (resolve the response) are split into `submitStart` and
  `submitResolve`.
-/

/-- A stored answer: a single string (single-select question) or an array of
strings (multi-select question). -/
inductive Answer where
  | single (s : String)
  | multi (l : List String)
deriving DecidableEq, Repr

/-- JS object with question-id keys, in key order. -/
abbrev AnswerMap := List (String × Answer)

/-- `answers[k]`: the value at key `k`, if present (first occurrence). -/
def lookupAns : AnswerMap → String → Option Answer
  | [], _ => none
  | p :: t, k => if p.1 == k then some p.2 else lookupAns t k

/-- `{...answers, [k]: v}`: overwrite the value at `k` keeping key order,
or append the new key. -/
def setAns (m : AnswerMap) (k : String) (v : Answer) : AnswerMap :=
  if m.any (fun p => p.1 == k) then
    m.map (fun p => if p.1 == k then (k, v) else p)
  else
    m ++ [(k, v)]

/-- `type` field of a question: `'select'` or `'multiselect'`. -/
inductive QType where
  | select
  | multiselect
deriving DecidableEq, Repr

/-- One entry of the `QUESTIONS` array. -/
structure Question where
  id : String
  part : Nat
  title : String
  subtitle : String
  qtype : QType
  options : List String
deriving DecidableEq, Repr

/-- The `QUESTIONS` catalog, transcribed in declaration order. -/
def QUESTIONS : List Question := [
  { id := "location", part := 1,
    title := "Location of the Property",
    subtitle := "Land laws differ by state",
    qtype := .select,
    options := ["Maharashtra", "Karnataka", "Tamil Nadu", "Kerala",
      "Andhra Pradesh", "Telangana", "Gujarat", "Rajasthan",
      "Uttar Pradesh", "Madhya Pradesh", "Delhi", "Punjab", "Haryana",
      "West Bengal", "Bihar", "Other"] },
  { id := "property_type", part := 1,
    title := "Type of Property",
    subtitle := "Determines which court has jurisdiction",
    qtype := .select,
    options := ["Agricultural Land", "Residential Plot/House",
      "Apartment/Flat", "Commercial Property"] },
  { id := "possession_status", part := 1,
    title := "Current Status of the Property",
    subtitle := "Possession is 9/10ths of the law",
    qtype := .select,
    options := ["I am in possession", "The other party is in possession",
      "It is a vacant lot/open land", "We share possession"] },
  { id := "opponent_type", part := 2,
    title := "Who is the dispute with?",
    subtitle := "Determines the type of legal action needed",
    qtype := .select,
    options := ["Family Member/Relative", "Neighbor", "Builder/Developer",
      "Tenant", "Government/Authority", "Stranger/Land Grabber"] },
  { id := "core_issue", part := 2,
    title := "What is the core issue?",
    subtitle := "Select the closest match",
    qtype := .select,
    options := ["They are blocking my access/pathway",
      "They have illegally occupied/built on my land",
      "They created fake documents/sold my land",
      "Family members are refusing to give my share",
      "Tenant is refusing to vacate or pay rent",
      "Government is acquiring land/refusing mutation"] },
  { id := "ancestral_status", part := 2,
    title := "Is the property Ancestral or Self-Acquired?",
    subtitle := "Crucial for family disputes",
    qtype := .select,
    options := ["Ancestral (Grandparents' property)",
      "Self-Acquired (Bought by me/parents)", "Don't Know"] },
  { id := "revenue_records_name", part := 3,
    title := "Whose name is on the Revenue Records?",
    subtitle := "7/12 Extract, Khata, Patta, Jamabandi",
    qtype := .select,
    options := ["My name", "Late parent/relative's name", "Opponent's name",
      "Joint names", "Don't know"] },
  { id := "documents_held", part := 3,
    title := "Which documents do you have?",
    subtitle := "Select all that apply",
    qtype := .multiselect,
    options := ["Registered Sale Deed", "Will", "Gift Deed",
      "Agreement to Sale (Notary)", "Power of Attorney",
      "Recent Tax Receipt", "7/12 Extract / Khata", "None"] },
  { id := "police_court_status", part := 4,
    title := "Has any legal action been taken?",
    subtitle := "Police complaint or court case",
    qtype := .select,
    options := ["No legal action yet", "Police Complaint filed",
      "Court Case pending (Summons received)",
      "Court Decree passed (Need execution)"] },
  { id := "immediate_threat", part := 4,
    title := "Is there an immediate threat?",
    subtitle := "Determines urgency of action",
    qtype := .select,
    options := ["No immediate threat",
      "Construction is starting on the land now",
      "They are threatening physical violence/dispossession",
      "They are trying to sell the land to a third party"] },
  { id := "dispute_start_date", part := 4,
    title := "When did the dispute start?",
    subtitle := "Important for Limitation Act",
    qtype := .select,
    options := ["Less than 3 years ago", "3-12 years ago",
      "More than 12 years ago"] },
  { id := "desired_outcome", part := 4,
    title := "What is your desired outcome?",
    subtitle := "Helps determine best approach",
    qtype := .select,
    options := ["I want to sell and exit", "I want to keep the land and use it",
      "I just want monetary compensation",
      "I want to stop them from bothering me"] }
]

/-! ### AnalysisResult -/

/-- One entry of `actionable_resources.official_portal_links`. -/
structure PortalLink where
  name : String
  url : String
  purpose : String
deriving DecidableEq, Repr

/-- The optional `actionable_resources.police_action` object. -/
structure PoliceAction where
  step : String
  legal_code : String
deriving DecidableEq, Repr

/-- The `actionable_resources` object. -/
structure ActionableResources where
  official_portal_links : List PortalLink
  police_action : Option PoliceAction
deriving DecidableEq, Repr

/-- One entry of `smart_document_checklist`. -/
structure ChecklistDoc where
  document : String
  source : String
  urgency : String
deriving DecidableEq, Repr

/-- The `case_analysis` object; `severity_tier` is optional because the code
reads it with optional chaining (`severity_tier?.match`). -/
structure CaseAnalysis where
  summary : String
  severity_tier : Option String
  legal_category : String
  limitation_status : String
  risk_warning : Option String
deriving DecidableEq, Repr

/-- The `recommended_service` object. -/
structure RecommendedService where
  product_name : String
  price_point : String
  cta_text : String
deriving DecidableEq, Repr

/-- The analysis-service response held in component state. -/
structure AnalysisResult where
  case_analysis : CaseAnalysis
  actionable_resources : ActionableResources
  smart_document_checklist : List ChecklistDoc
  immediate_next_steps : List String
  recommended_service : RecommendedService
deriving DecidableEq, Repr

/-! ### Severity parsing and classification

The results view computes
`case_analysis.severity_tier?.match(/Level (\d+)/)` and
`severityLevel = severityMatch ? parseInt(severityMatch[1]) : 5`, then the
badge `severityLevel >= 8 ? 'critical' : severityLevel >= 6 ? 'high' :
'moderate'`; the report template reuses the same `severityLevel` variable
with the class names `severity-critical` / `severity-high` /
`severity-moderate`. -/

/-- ASCII digit test, the `\d` character class of the regex. -/
def isDigit (c : Char) : Bool := '0' ≤ c && c ≤ '9'

/-- The literal part `"Level "` of the regex `/Level (\d+)/`. -/
def lvlPat : List Char := ['L', 'e', 'v', 'e', 'l', ' ']

/-- `needle` is a prefix of `hay` (character lists). -/
def isPrefixL : List Char → List Char → Bool
  | [], _ => true
  | _ :: _, [] => false
  | a :: as, b :: bs => a == b && isPrefixL as bs

/-- `hay` contains `needle` as a contiguous substring
(JS `String.prototype.includes`). -/
def containsL : List Char → List Char → Bool
  | [], needle => isPrefixL needle []
  | c :: t, needle => isPrefixL needle (c :: t) || containsL t needle

/-- Try the regex `/Level (\d+)/` anchored at the start of `cs`: the literal
`"Level "` followed by at least one digit; the capture group is the maximal
digit run. -/
def matchLevelAt (cs : List Char) : Option (List Char) :=
  if isPrefixL lvlPat cs then
    match (cs.drop 6).takeWhile isDigit with
    | [] => none
    | d :: ds => some (d :: ds)
  else none

/-- JS `str.match(/Level (\d+)/)`: leftmost match, returning the capture
group (the digit run). -/
def levelMatch : List Char → Option (List Char)
  | [] => none
  | c :: t =>
    match matchLevelAt (c :: t) with
    | some ds => some ds
    | none => levelMatch t

/-- Decimal value of a digit run (`parseInt` on the capture group). -/
def digitsToNat (ds : List Char) : Nat :=
  ds.foldl (fun n c => n * 10 + (c.toNat - '0'.toNat)) 0

/-- `severityLevel`: parse the level from the optional tier string,
defaulting to 5 when the field is absent or the regex does not match. -/
def severityLevelOf (tier : Option String) : Nat :=
  match tier with
  | none => 5
  | some s =>
    match levelMatch s.data with
    | some ds => digitsToNat ds
    | none => 5

/-- The three severity categories used by the badge class names. -/
inductive Severity where
  | critical
  | high
  | moderate
deriving DecidableEq, Repr

/-- Results-view severity badge:
`severityLevel >= 8 ? 'critical' : severityLevel >= 6 ? 'high' : 'moderate'`. -/
def resultsSeverityBadge (tier : Option String) : Severity :=
  let severityLevel := severityLevelOf tier
  if severityLevel ≥ 8 then .critical
  else if severityLevel ≥ 6 then .high
  else .moderate

/-- Report severity badge class:
`severityLevel >= 8 ? 'severity-critical' : severityLevel >= 6 ?
'severity-high' : 'severity-moderate'`. -/
def reportSeverityClass (tier : Option String) : String :=
  let severityLevel := severityLevelOf tier
  if severityLevel ≥ 8 then "severity-critical"
  else if severityLevel ≥ 6 then "severity-high"
  else "severity-moderate"

/-- The class-name suffix of a severity category. -/
def severityName : Severity → String
  | .critical => "critical"
  | .high => "high"
  | .moderate => "moderate"

/-! ### Urgency classification -/

/-- ASCII-range model of JS `toLowerCase` (all urgency strings involved are
ASCII). -/
def lowerStr (s : String) : String := ⟨s.data.map Char.toLower⟩

/-- JS `a.includes(b)` on strings. -/
def strIncludes (s sub : String) : Bool := containsL s.data sub.data

/-- The three urgency categories of the results view's class
`urgency-high` / `urgency-immediate` / `urgency-medium`. -/
inductive Urgency where
  | high
  | immediate
  | medium
deriving DecidableEq, Repr

/-- Results-view urgency class per checklist document:
`doc.urgency.toLowerCase().includes('high') ? 'high' :
doc.urgency.toLowerCase().includes('immediate') ? 'immediate' : 'medium'`. -/
def docUrgencyClass (u : String) : Urgency :=
  if strIncludes (lowerStr u) "high" then .high
  else if strIncludes (lowerStr u) "immediate" then .immediate
  else .medium

/-- Report urgency tag per checklist document:
`doc.urgency.toLowerCase().includes('high') ? 'high' : ''`. -/
def reportUrgencyTag (u : String) : String :=
  if strIncludes (lowerStr u) "high" then "high" else ""

/-- The class-name suffix of an urgency category in the results view. -/
def urgencyName : Urgency → String
  | .high => "high"
  | .immediate => "immediate"
  | .medium => "medium"

/-! ### Wizard state and event handlers -/

/-- A scheduled `setTimeout` callback of the auto-advance, with the values
its closure captured at scheduling time: `currentQuestion`, `answers`,
the selected `value` and `question.id`. -/
inductive Pending where
  | autoAdvance (capturedIndex : Nat) (capturedAnswers : AnswerMap)
      (capturedValue : String) (capturedQid : String)
deriving DecidableEq, Repr

/-- The fetch outcome of one submission: a parsed 2xx body, a non-ok
response (`throw new Error('Analysis failed')`), or a transport failure
(the promise rejects). Both failure shapes land in the same `catch`. -/
inductive FetchResult where
  | ok (r : AnalysisResult)
  | httpError
  | transportError
deriving DecidableEq, Repr

/-- `res` is a non-success response or transport failure. -/
def FetchResult.isFailure : FetchResult → Bool
  | .ok _ => false
  | .httpError => true
  | .transportError => true

/-- The `IntakeFlow` component state, plus the scheduled-timeout queue and
the trace of request payloads handed to `fetch`. -/
structure Wizard where
  currentQuestion : Nat
  answers : AnswerMap
  isAnalyzing : Bool
  analysisResult : Option AnalysisResult
  error : Option String
  pending : List Pending
  submitted : List AnswerMap
deriving DecidableEq, Repr

/-- The state at mount: `useState(0)`, `useState({})`, `useState(false)`,
`useState(null)`, `useState(null)`. -/
def initialWizard : Wizard :=
  { currentQuestion := 0, answers := [], isAnalyzing := false,
    analysisResult := none, error := none, pending := [], submitted := [] }

/-- The answers-map effect of `handleSelect(value)` at question `q`:
multi-select toggles membership of `value` (`current.filter(v => v !==
value)` when present, `[...current, value]` when absent, where
`current = answers[question.id] || []`); single-select overwrites with
`value`. (A multi-select question id only ever stores an array, so the
`|| []` fallback covers exactly the absent-key case.) -/
def selectAnswers (answers : AnswerMap) (q : Question) (value : String) :
    AnswerMap :=
  match q.qtype with
  | .multiselect =>
    let current : List String :=
      match lookupAns answers q.id with
      | some (.multi l) => l
      | _ => []
    if current.contains value then
      setAns answers q.id (.multi (current.filter (fun v => v != value)))
    else
      setAns answers q.id (.multi (current ++ [value]))
  | .select => setAns answers q.id (.single value)

/-- The static generic message shown on submission failure. -/
def failureMessage : String := "Failed to analyze case. Please try again."

/-- Synchronous prefix of `submitCaseWithAnswer` / `submitCase`:
`setIsAnalyzing(true); setError(null);` and issue the `fetch` with the
given JSON payload. -/
def submitStart (w : Wizard) (payload : AnswerMap) : Wizard :=
  { w with isAnalyzing := true, error := none,
           submitted := w.submitted ++ [payload] }

/-- Continuation of a submission once the fetch settles: on a parsed 2xx
body, `setAnalysisResult(result)` (note: `isAnalyzing` is NOT reset on
success); otherwise the `catch` block logs the cause and runs
`setError('Failed to analyze case. Please try again.');
setIsAnalyzing(false)`. -/
def submitResolve (w : Wizard) (res : FetchResult) : Wizard :=
  match res with
  | .ok r => { w with analysisResult := some r }
  | .httpError =>
      { w with error := some failureMessage, isAnalyzing := false }
  | .transportError =>
      { w with error := some failureMessage, isAnalyzing := false }

/-- One whole invocation of `submitCaseWithAnswer(finalAnswers)`, from the
call to the settling of its single fetch. -/
def submitCaseWithAnswer (w : Wizard) (finalAnswers : AnswerMap)
    (res : FetchResult) : Wizard :=
  submitResolve (submitStart w finalAnswers) res

/-- One whole invocation of `submitCase()` (payload = current `answers`). -/
def submitCase (w : Wizard) (res : FetchResult) : Wizard :=
  submitResolve (submitStart w w.answers) res

/-- `handleSelect(value)`: multi-select updates the answer set immediately
and schedules nothing; single-select stores the answer and schedules the
auto-advance `setTimeout`, whose closure captures the current
`currentQuestion`, `answers`, `value` and `question.id`. -/
def handleSelect (w : Wizard) (value : String) : Wizard :=
  match QUESTIONS.get? w.currentQuestion with
  | none => w
  | some q =>
    match q.qtype with
    | .multiselect => { w with answers := selectAnswers w.answers q value }
    | .select =>
      { w with
          answers := setAns w.answers q.id (.single value),
          pending := w.pending ++
            [.autoAdvance w.currentQuestion w.answers value q.id] }

/-- Firing one scheduled auto-advance callback in the then-current state
`w`: the branch test and the submission payload use only the captured
values, never the state at fire time. On the non-last branch it runs
`setCurrentQuestion(capturedIndex + 1)`; on the last-question branch it
starts `submitCaseWithAnswer({...capturedAnswers, [capturedQid]:
capturedValue})`. -/
def fireAuto (w : Wizard) : Pending → Wizard
  | .autoAdvance idx ans v qid =>
    if idx < QUESTIONS.length - 1 then { w with currentQuestion := idx + 1 }
    else submitStart w (setAns ans qid (.single v))

/-- Fire the oldest scheduled timeout (timers with equal delay run FIFO). -/
def fireFirst (w : Wizard) : Wizard :=
  match w.pending with
  | [] => w
  | p :: rest => fireAuto { w with pending := rest } p

/-- `canProceed()`: multi-select needs `(answers[id] || []).length > 0`;
single-select needs `!!answers[id]` (a stored option string is non-empty,
so truthy). -/
def canProceed (w : Wizard) : Bool :=
  match QUESTIONS.get? w.currentQuestion with
  | none => false
  | some q =>
    match q.qtype with
    | .multiselect =>
      (match lookupAns w.answers q.id with
       | some (.multi l) => l.length > 0
       | _ => false)
    | .select =>
      (match lookupAns w.answers q.id with
       | some (.single s) => s != ""
       | some (.multi _) => true
       | none => false)

/-- `handleNext()`: advance when not on the last question, else call
`submitCase()` — whose synchronous effect is `submitStart` with the current
`answers`; the fetch settles later via `submitResolve`. -/
def handleNext (w : Wizard) : Wizard :=
  if w.currentQuestion < QUESTIONS.length - 1 then
    { w with currentQuestion := w.currentQuestion + 1 }
  else submitStart w w.answers

/-- `handleBack()`: decrement when not on the first question; at index 0 it
navigates away (`navigate('/home')`) without mutating wizard state. -/
def handleBack (w : Wizard) : Wizard :=
  if w.currentQuestion > 0 then
    { w with currentQuestion := w.currentQuestion - 1 }
  else w

/-- The Start New Case button: `setAnalysisResult(null);
setCurrentQuestion(0); setAnswers({})` — and nothing else. -/
def startNewCase (w : Wizard) : Wizard :=
  { w with analysisResult := none, currentQuestion := 0, answers := [] }

/-- Which of the three top-level views the component returns, in the
source's order of the early returns: the results view when
`analysisResult` is set, else the loading view when `isAnalyzing`, else
the question form. -/
inductive View where
  | results
  | analyzing
  | questions
deriving DecidableEq, Repr

/-- The render dispatch of `IntakeFlow`. -/
def render (w : Wizard) : View :=
  if w.analysisResult.isSome then .results
  else if w.isAnalyzing then .analyzing
  else .questions

/-- A sequence of `handleSelect`-style answer updates applied to an
initially empty answers object. -/
def runSelects (ops : List (Question × String)) : AnswerMap :=
  ops.foldl (fun m p => selectAnswers m p.1 p.2) []

/-- A concrete well-formed analysis response with `severity_tier`
`"Level 8"`. -/
def sampleAnalysis : AnalysisResult :=
  { case_analysis :=
      { summary := "Encroachment case with strong documentary evidence.",
        severity_tier := some "Level 8",
        legal_category := "Civil - Property",
        limitation_status := "Within limitation",
        risk_warning := none },
    actionable_resources :=
      { official_portal_links :=
          [{ name := "MahaBhulekh", url := "https://bhulekh.mahabhumi.gov.in",
             purpose := "Check land records" }],
        police_action := none },
    smart_document_checklist :=
      [{ document := "7/12 Extract", source := "Tehsil office",
         urgency := "High priority" }],
    immediate_next_steps := ["1. File a complaint", "Talk to a lawyer"],
    recommended_service :=
      { product_name := "DOER Case Filing", price_point := "Rs 4999",
        cta_text := "Get Started" } }

/-- A full concrete intake session answering all 12 questions (every
single-select via `handleSelect` followed by its auto-advance firing, the
multi-select via one toggle and an explicit Next), up to the point where
the last question's auto-advance has issued the submission request. -/
def e2eSubmittedState : Wizard :=
  let s1 := fireFirst (handleSelect initialWizard "Maharashtra")
  let s2 := fireFirst (handleSelect s1 "Agricultural Land")
  let s3 := fireFirst (handleSelect s2 "I am in possession")
  let s4 := fireFirst (handleSelect s3 "Neighbor")
  let s5 := fireFirst (handleSelect s4 "They are blocking my access/pathway")
  let s6 := fireFirst (handleSelect s5 "Don't Know")
  let s7 := fireFirst (handleSelect s6 "My name")
  let s8 := handleNext (handleSelect s7 "Registered Sale Deed")
  let s9 := fireFirst (handleSelect s8 "No legal action yet")
  let s10 := fireFirst (handleSelect s9 "No immediate threat")
  let s11 := fireFirst (handleSelect s10 "Less than 3 years ago")
  fireFirst (handleSelect s11 "I want to keep the land and use it")

/-- The same session after the service answers 200 with `sampleAnalysis`
(whose `severity_tier` is `"Level 8"`). -/
def e2eSucceededState : Wizard :=
  submitResolve e2eSubmittedState (.ok sampleAnalysis)


/-! ### Association-list lemmas -/

/-- Overwriting the value at an existing key makes lookup return the new value. -/
theorem lookup_overwrite (m : AnswerMap) (k : String) (v : Answer)
    (h : m.any (fun p => p.1 == k) = true) :
    lookupAns (m.map (fun p => if p.1 == k then (k, v) else p)) k = some v := by
  induction m with
  | nil => simp at h
  | cons a t ih =>
    simp only [List.any_cons, Bool.or_eq_true] at h
    by_cases ha : (a.1 == k) = true
    · simp [lookupAns, ha]
    · rcases h with h | h
      · exact absurd h ha
      · simp only [Bool.not_eq_true] at ha
        simp [lookupAns, ha]
        simpa using ih h

/-- Appending a fresh key makes lookup return its value. -/
theorem lookup_append_new (m : AnswerMap) (k : String) (v : Answer)
    (h : m.any (fun p => p.1 == k) = false) :
    lookupAns (m ++ [(k, v)]) k = some v := by
  induction m with
  | nil => simp [lookupAns]
  | cons a t ih =>
    simp only [List.any_cons, Bool.or_eq_false_iff] at h
    simp [lookupAns, h.1, ih h.2]

/-- Overwriting key `k` does not change lookups at other keys. -/
theorem lookup_overwrite_ne (m : AnswerMap) (k : String) (v : Answer)
    (j : String) (hj : j ≠ k) :
    lookupAns (m.map (fun p => if p.1 == k then (k, v) else p)) j
      = lookupAns m j := by
  induction m with
  | nil => rfl
  | cons a t ih =>
    by_cases ha : (a.1 == k) = true
    · have hk : a.1 = k := eq_of_beq ha
      have hkj : k ≠ j := Ne.symm hj
      simp [lookupAns, ha, hk, hkj]
      simpa using ih
    · simp only [Bool.not_eq_true] at ha
      by_cases haj : a.1 = j
      · simp [lookupAns, ha, haj, hj]
      · simp [lookupAns, ha, haj]
        simpa using ih

/-- Appending key `k` does not change lookups at other keys. -/
theorem lookup_append_ne (m : AnswerMap) (k : String) (v : Answer)
    (j : String) (hj : j ≠ k) :
    lookupAns (m ++ [(k, v)]) j = lookupAns m j := by
  induction m with
  | nil =>
    have hkj : (k == j) = false := beq_eq_false_iff_ne.mpr (Ne.symm hj)
    simp [lookupAns, hkj]
  | cons a t ih => simp [lookupAns, ih]

/-- After `setAns m k v`, looking up `k` yields `v`. -/
theorem lookup_setAns_self (m : AnswerMap) (k : String) (v : Answer) :
    lookupAns (setAns m k v) k = some v := by
  unfold setAns
  by_cases h : m.any (fun p => p.1 == k) = true
  · rw [if_pos h]; exact lookup_overwrite m k v h
  · rw [if_neg h]
    exact lookup_append_new m k v (Bool.not_eq_true _ ▸ eq_false_of_ne_true h)

/-- `setAns m k v` leaves every other key unchanged. -/
theorem lookup_setAns_ne (m : AnswerMap) (k : String) (v : Answer)
    (j : String) (hj : j ≠ k) :
    lookupAns (setAns m k v) j = lookupAns m j := by
  unfold setAns
  by_cases h : m.any (fun p => p.1 == k) = true
  · rw [if_pos h]; exact lookup_overwrite_ne m k v j hj
  · rw [if_neg h]; exact lookup_append_ne m k v j hj

/-- Every `handleSelect` answers update writes (only) the current question's key. -/
theorem selectAnswers_eq_setAns (m : AnswerMap) (q : Question) (v : String) :
    ∃ a, selectAnswers m q v = setAns m q.id a := by
  unfold selectAnswers
  cases hq : q.qtype
  · exact ⟨.single v, rfl⟩
  · simp only
    split
    · exact ⟨_, rfl⟩
    · exact ⟨_, rfl⟩

/-- A select on question `q` leaves keys other than `q.id` unchanged. -/
theorem lookup_selectAnswers_ne (m : AnswerMap) (q : Question) (v : String)
    (j : String) (hj : j ≠ q.id) :
    lookupAns (selectAnswers m q v) j = lookupAns m j := by
  obtain ⟨a, ha⟩ := selectAnswers_eq_setAns m q v
  rw [ha]
  exact lookup_setAns_ne m q.id a j hj

/-- Keys of a fold of selects come from the operations or the initial map. -/
theorem foldSelects_keys (ops : List (Question × String)) :
    ∀ (m : AnswerMap) (k : String),
    (lookupAns (ops.foldl (fun m p => selectAnswers m p.1 p.2) m) k).isSome
      = true →
    (∃ p ∈ ops, p.1.id = k) ∨ (lookupAns m k).isSome = true := by
  induction ops with
  | nil => exact fun m k h => Or.inr h
  | cons p t ih =>
    intro m k h
    simp only [List.foldl_cons] at h
    rcases ih (selectAnswers m p.1 p.2) k h with h1 | h1
    · obtain ⟨p', hp', he⟩ := h1
      exact Or.inl ⟨p', List.mem_cons_of_mem _ hp', he⟩
    · by_cases hk : k = p.1.id
      · exact Or.inl ⟨p, List.mem_cons_self _ _, hk.symm⟩
      · rw [lookup_selectAnswers_ne m p.1 p.2 k hk] at h1
        exact Or.inr h1

/-- Toggling off the only selected option of a multi-select leaves the key
present with an empty array. -/
theorem multiselect_toggle_off (m : AnswerMap) (q : Question) (v : String)
    (hq : q.qtype = QType.multiselect)
    (hv : lookupAns m q.id = some (.multi [v])) :
    lookupAns (selectAnswers m q v) q.id = some (.multi []) := by
  unfold selectAnswers
  rw [hq, hv]
  simp [lookup_setAns_self]

/-! ### Prefix / substring / regex-scan lemmas -/

/-- Boolean prefix test agrees with the propositional characterisation. -/
theorem isPrefixL_iff (needle : List Char) :
    ∀ hay, isPrefixL needle hay = true ↔ ∃ t, hay = needle ++ t := by
  induction needle with
  | nil => intro hay; simp [isPrefixL]
  | cons a as ih =>
    intro hay
    cases hay with
    | nil =>
      simp only [isPrefixL]
      constructor
      · intro h; exact absurd h (by simp)
      · rintro ⟨t, ht⟩; exact absurd ht (by simp)
    | cons b bs =>
      simp only [isPrefixL, Bool.and_eq_true, beq_iff_eq, ih bs]
      constructor
      · rintro ⟨rfl, t, rfl⟩; exact ⟨t, rfl⟩
      · rintro ⟨t, ht⟩
        injection ht with h1 h2
        exact ⟨h1.symm, t, h2⟩

/-- Boolean substring test holds iff the needle is a prefix of some suffix. -/
theorem containsL_iff (hay : List Char) :
    ∀ needle, containsL hay needle = true ↔
      ∃ n, isPrefixL needle (hay.drop n) = true := by
  induction hay with
  | nil =>
    intro needle
    simp only [containsL, List.drop_nil]
    exact ⟨fun h => ⟨0, h⟩, fun ⟨_, h⟩ => h⟩
  | cons c t ih =>
    intro needle
    simp only [containsL, Bool.or_eq_true, ih needle]
    constructor
    · rintro (h | ⟨n, hn⟩)
      · exact ⟨0, h⟩
      · exact ⟨n + 1, hn⟩
    · rintro ⟨n, hn⟩
      cases n with
      | zero => exact Or.inl hn
      | succ n => exact Or.inr ⟨n, hn⟩

/-- A prefix of a longer pattern is a prefix of the subject as well. -/
theorem isPrefixL_append_left (x y hay : List Char)
    (h : isPrefixL (x ++ y) hay = true) : isPrefixL x hay = true := by
  rw [isPrefixL_iff] at h ⊢
  obtain ⟨t, ht⟩ := h
  exact ⟨y ++ t, by rw [ht, List.append_assoc]⟩

/-- When `takeWhile` returns a cons, the list starts with that element and it
satisfies the predicate. -/
theorem takeWhile_eq_cons {p : Char → Bool} {l : List Char} {d : Char}
    {ds : List Char} (h : l.takeWhile p = d :: ds) :
    p d = true ∧ ∃ t, l = d :: t := by
  cases l with
  | nil => simp [List.takeWhile] at h
  | cons a t =>
    by_cases hp : p a = true
    · rw [List.takeWhile_cons_of_pos hp] at h
      injection h with h1 h2
      subst h1
      exact ⟨hp, t, rfl⟩
    · rw [List.takeWhile_cons_of_neg (by simpa using hp)] at h
      exact absurd h (by simp)

/-- `takeWhile isDigit` on a digit-headed list returns a cons. -/
theorem takeWhile_digit_cons {t : List Char} {d : Char}
    (hd : isDigit d = true) :
    ∃ ds, (d :: t).takeWhile isDigit = d :: ds := by
  rw [List.takeWhile_cons_of_pos hd]
  exact ⟨t.takeWhile isDigit, rfl⟩

/-- Anchored match succeeds iff the position starts with `"Level "` followed by
a digit. -/
theorem matchLevelAt_isSome (cs : List Char) :
    (matchLevelAt cs).isSome = true ↔
      ∃ d, isDigit d = true ∧ isPrefixL (lvlPat ++ [d]) cs = true := by
  unfold matchLevelAt
  by_cases hp : isPrefixL lvlPat cs = true
  · rw [if_pos hp]
    obtain ⟨rest, hrest⟩ := (isPrefixL_iff lvlPat cs).mp hp
    have hdrop : cs.drop 6 = rest := by
      rw [hrest]
      have : lvlPat.length = 6 := rfl
      rw [← this, List.drop_left]
    rw [hdrop]
    constructor
    · intro h
      rcases htw : rest.takeWhile isDigit with _ | ⟨d, ds⟩
      · rw [htw] at h; simp at h
      · obtain ⟨hd, t, ht⟩ := takeWhile_eq_cons htw
        refine ⟨d, hd, ?_⟩
        rw [isPrefixL_iff]
        exact ⟨t, by rw [hrest, ht, List.append_assoc]; rfl⟩
    · rintro ⟨d, hd, hpre⟩
      rw [isPrefixL_iff] at hpre
      obtain ⟨t, ht⟩ := hpre
      rw [List.append_assoc] at ht
      have hrt : rest = d :: t := by
        have h2 : lvlPat ++ rest = lvlPat ++ (d :: t) := by
          rw [← hrest, ht]; rfl
        exact List.append_cancel_left h2
      obtain ⟨ds, hds⟩ := @takeWhile_digit_cons t d hd
      rw [hrt, hds]
      simp
  · rw [if_neg hp]
    simp only [Option.isSome_none, Bool.false_eq_true, false_iff]
    rintro ⟨d, _, hpre⟩
    exact hp (isPrefixL_append_left lvlPat [d] cs hpre)

/-- The left-to-right scan succeeds iff the anchored match succeeds at some
position. -/
theorem levelMatch_isSome (cs : List Char) :
    (levelMatch cs).isSome = true ↔
      ∃ n, (matchLevelAt (cs.drop n)).isSome = true := by
  induction cs with
  | nil =>
    simp only [levelMatch, List.drop_nil]
    constructor
    · intro h; simp at h
    · rintro ⟨n, hn⟩
      have : matchLevelAt [] = none := by unfold matchLevelAt lvlPat isPrefixL; rfl
      rw [this] at hn; simp at hn
  | cons c t ih =>
    unfold levelMatch
    rcases hm : matchLevelAt (c :: t) with _ | ds
    · simp only [ih]
      constructor
      · rintro ⟨n, hn⟩; exact ⟨n + 1, hn⟩
      · rintro ⟨n, hn⟩
        cases n with
        | zero => rw [List.drop_zero] at hn; rw [hm] at hn; simp at hn
        | succ n => exact ⟨n, hn⟩
    · simp only [Option.isSome_some, true_iff]
      exact ⟨0, by rw [List.drop_zero, hm]; rfl⟩

/-- The regex search `/Level (\d+)/` succeeds exactly when `"Level "` followed
by a digit occurs as a substring. -/
theorem levelMatch_contains (cs : List Char) :
    (levelMatch cs).isSome = true ↔
      ∃ d, isDigit d = true ∧ containsL cs (lvlPat ++ [d]) = true := by
  rw [levelMatch_isSome]
  constructor
  · rintro ⟨n, hn⟩
    rw [matchLevelAt_isSome] at hn
    obtain ⟨d, hd, hpre⟩ := hn
    exact ⟨d, hd, (containsL_iff cs _).mpr ⟨n, hpre⟩⟩
  · rintro ⟨d, hd, hc⟩
    obtain ⟨n, hn⟩ := (containsL_iff cs _).mp hc
    exact ⟨n, (matchLevelAt_isSome _).mpr ⟨d, hd, hn⟩⟩

/-- Claim C1 (amended): the printable report and the results view derive the
severity category identically (the report class is `"severity-"` plus the
view's category name for every tier string), and for urgency the report
reproduces only the high category: its tag is `"high"` exactly when the view
classifies high, and empty otherwise, so the view categories immediate and
medium are not distinguished in the report. -/
theorem c1_amended :
    (∀ tier, reportSeverityClass tier
        = "severity-" ++ severityName (resultsSeverityBadge tier))
    ∧ (∀ u, docUrgencyClass u = .high ↔ reportUrgencyTag u = "high")
    ∧ (∀ u, docUrgencyClass u ≠ .high → reportUrgencyTag u = "") := by
  refine ⟨?_, ?_, ?_⟩
  · intro tier
    by_cases h8 : severityLevelOf tier ≥ 8
    · simp [reportSeverityClass, resultsSeverityBadge, h8, severityName]
    · by_cases h6 : severityLevelOf tier ≥ 6
      · simp [reportSeverityClass, resultsSeverityBadge, h8, h6, severityName]
      · simp [reportSeverityClass, resultsSeverityBadge, h8, h6, severityName]
  · intro u
    by_cases hh : strIncludes (lowerStr u) "high" = true
    · simp [docUrgencyClass, reportUrgencyTag, hh]
    · simp only [Bool.not_eq_true] at hh
      by_cases hi : strIncludes (lowerStr u) "immediate" = true
      · simp [docUrgencyClass, reportUrgencyTag, hh, hi]
      · simp only [Bool.not_eq_true] at hi
        simp [docUrgencyClass, reportUrgencyTag, hh, hi]
  · intro u hu
    by_cases hh : strIncludes (lowerStr u) "high" = true
    · exact absurd (by simp [docUrgencyClass, hh]) hu
    · simp only [Bool.not_eq_true] at hh
      simp [reportUrgencyTag, hh]

/-- Claim C1 fails as stated: for a checklist urgency `"Immediate action"` the
results view assigns the category immediate while the report assigns no
urgency category at all (empty tag). -/
theorem c1_counterexample :
    docUrgencyClass "Immediate action" = .immediate
    ∧ reportUrgencyTag "Immediate action" = ""
    ∧ reportUrgencyTag "Immediate action"
        ≠ urgencyName (docUrgencyClass "Immediate action") := by decide

/-- Witness for `c1_amended` at concrete inputs. -/
theorem c1_witness :
    reportSeverityClass (some "Level 9")
      = "severity-" ++ severityName (resultsSeverityBadge (some "Level 9"))
    ∧ reportUrgencyTag "Medium term" = "" :=
  ⟨c1_amended.1 (some "Level 9"), c1_amended.2.2 "Medium term" (by decide)⟩

/-- Claim C2: severity is computed by parsing the integer N from the
`"Level N"` pattern with default N = 5 on no match, classifying N ≥ 8 as
critical, 6 ≤ N < 8 as high and every other N as moderate; in particular
`"Level 9"` is critical, `"Level 7"` high, `"Level 3"` moderate, and a tier
string with no `"Level N"` pattern moderate. -/
theorem c2_severity :
    (∀ s : String, levelMatch s.data = none →
      severityLevelOf (some s) = 5 ∧ resultsSeverityBadge (some s) = .moderate)
    ∧ (∀ t, 8 ≤ severityLevelOf t → resultsSeverityBadge t = .critical)
    ∧ (∀ t, 6 ≤ severityLevelOf t → severityLevelOf t < 8 →
        resultsSeverityBadge t = .high)
    ∧ (∀ t, severityLevelOf t < 6 → resultsSeverityBadge t = .moderate)
    ∧ severityLevelOf (some "Level 9") = 9
    ∧ resultsSeverityBadge (some "Level 9") = .critical
    ∧ severityLevelOf (some "Level 7") = 7
    ∧ resultsSeverityBadge (some "Level 7") = .high
    ∧ severityLevelOf (some "Level 3") = 3
    ∧ resultsSeverityBadge (some "Level 3") = .moderate
    ∧ resultsSeverityBadge (some "Critical tier") = .moderate := by
  refine ⟨?_, ?_, ?_, ?_, by decide, by decide, by decide, by decide,
    by decide, by decide, by decide⟩
  · intro s h
    constructor
    · simp [severityLevelOf, h]
    · simp [resultsSeverityBadge, severityLevelOf, h]
  · intro t h
    simp [resultsSeverityBadge, h]
  · intro t h6 h8
    have h8' : ¬ severityLevelOf t ≥ 8 := by omega
    simp [resultsSeverityBadge, h8', h6]
  · intro t h
    have h8' : ¬ severityLevelOf t ≥ 8 := by omega
    have h6' : ¬ severityLevelOf t ≥ 6 := by omega
    simp [resultsSeverityBadge, h8', h6']

/-- Witness for `c2_severity` at concrete inputs. -/
theorem c2_witness :
    severityLevelOf (some "worst tier") = 5
    ∧ resultsSeverityBadge (some "Level 11") = .critical :=
  ⟨(c2_severity.1 "worst tier" (by decide)).1,
   c2_severity.2.1 (some "Level 11") (by decide)⟩

/-- Claim C3: checklist urgency is classified by case-insensitive substring
match with significant check order: contains `"high"` gives high, else
contains `"immediate"` gives immediate, else medium; a string containing both
resolves to high. -/
theorem c3_urgency :
    (∀ u, strIncludes (lowerStr u) "high" = true → docUrgencyClass u = .high)
    ∧ (∀ u, strIncludes (lowerStr u) "high" = false →
        strIncludes (lowerStr u) "immediate" = true →
        docUrgencyClass u = .immediate)
    ∧ (∀ u, strIncludes (lowerStr u) "high" = false →
        strIncludes (lowerStr u) "immediate" = false →
        docUrgencyClass u = .medium)
    ∧ (∀ u, strIncludes (lowerStr u) "high" = true →
        strIncludes (lowerStr u) "immediate" = true →
        docUrgencyClass u = .high)
    ∧ docUrgencyClass "High priority, immediate" = .high
    ∧ docUrgencyClass "Immediate action" = .immediate
    ∧ docUrgencyClass "Medium term" = .medium := by
  refine ⟨?_, ?_, ?_, ?_, by decide, by decide, by decide⟩
  · intro u h; simp [docUrgencyClass, h]
  · intro u hh hi; simp [docUrgencyClass, hh, hi]
  · intro u hh hi; simp [docUrgencyClass, hh, hi]
  · intro u hh _; simp [docUrgencyClass, hh]

/-- Witness for `c3_urgency` at a concrete input containing both keywords. -/
theorem c3_witness :
    docUrgencyClass "high and immediate" = .high :=
  c3_urgency.2.2.2.1 "high and immediate" (by decide) (by decide)

/-- Claim C4 (amended): after any sequence of select operations starting from
the empty map, a question id is a key only once some selection was made for
that question; however, toggling off the last selected option of a
multi-select leaves the key present mapping to an empty array (which
`canProceed` treats as unanswered) rather than removing the key. -/
theorem c4_amended :
    (∀ (ops : List (Question × String)) (k : String),
      (lookupAns (runSelects ops) k).isSome = true → ∃ p ∈ ops, p.1.id = k)
    ∧ (∀ (m : AnswerMap) (q : Question) (v : String),
        q.qtype = QType.multiselect →
        lookupAns m q.id = some (.multi [v]) →
        lookupAns (selectAnswers m q v) q.id = some (.multi []))
    ∧ canProceed
        { initialWizard with
            currentQuestion := 7,
            answers := runSelects
              [(QUESTIONS.get ⟨7, by decide⟩, "Will"),
               (QUESTIONS.get ⟨7, by decide⟩, "Will")] } = false := by
  refine ⟨?_, ?_, by decide⟩
  · intro ops k h
    unfold runSelects at h
    rcases foldSelects_keys ops [] k h with h1 | h1
    · exact h1
    · simp [lookupAns] at h1
  · exact multiselect_toggle_off

/-- Claim C4 fails as stated: selecting `"Will"` twice on the multi-select
question leaves the key `"documents_held"` present with an empty array, so a
multi-select value can be empty while its key is present. -/
theorem c4_counterexample :
    lookupAns
      (runSelects
        [(QUESTIONS.get ⟨7, by decide⟩, "Will"),
         (QUESTIONS.get ⟨7, by decide⟩, "Will")])
      "documents_held" = some (Answer.multi [])
    ∧ (lookupAns
        (runSelects
          [(QUESTIONS.get ⟨7, by decide⟩, "Will"),
           (QUESTIONS.get ⟨7, by decide⟩, "Will")])
        "documents_held").isSome = true := by decide

/-- Witness for `c4_amended` at a concrete map. -/
theorem c4_witness :
    lookupAns
      (selectAnswers [("documents_held", Answer.multi ["Will"])]
        (QUESTIONS.get ⟨7, by decide⟩) "Will")
      "documents_held" = some (Answer.multi []) :=
  c4_amended.2.1 [("documents_held", Answer.multi ["Will"])]
    (QUESTIONS.get ⟨7, by decide⟩) "Will" (by decide) (by decide)

/-- Claim C5: a single-select answer on the last question schedules an
auto-advance whose deferred action submits exactly the answer map including
the just-made selection, built from values captured at selection time and
independent of the state at fire time, so no later input is lost. -/
theorem c5_capture (w w2 : Wizard) (value : String)
    (h : w.currentQuestion = QUESTIONS.length - 1) :
    (handleSelect w value).answers
        = setAns w.answers "desired_outcome" (Answer.single value)
    ∧ (handleSelect w value).pending
        = w.pending ++
            [Pending.autoAdvance w.currentQuestion w.answers value
              "desired_outcome"]
    ∧ (fireAuto w2
        (Pending.autoAdvance w.currentQuestion w.answers value
          "desired_outcome")).submitted
        = w2.submitted ++ [(handleSelect w value).answers]
    ∧ (fireAuto w2
        (Pending.autoAdvance w.currentQuestion w.answers value
          "desired_outcome")).isAnalyzing = true := by
  have h11 : w.currentQuestion = 11 := h.trans (by decide)
  refine ⟨?_, ?_, ?_, ?_⟩
  · unfold handleSelect
    rw [h11]
    rfl
  · unfold handleSelect
    rw [h11]
    rfl
  · unfold handleSelect fireAuto
    rw [h11]
    rfl
  · unfold fireAuto
    rw [h11]
    rfl

/-- Witness for `c5_capture` at a concrete last-question state. -/
theorem c5_witness :
    (handleSelect { initialWizard with currentQuestion := 11 }
        "I want to sell and exit").answers
      = setAns [] "desired_outcome"
          (Answer.single "I want to sell and exit") :=
  (c5_capture { initialWizard with currentQuestion := 11 } initialWizard
    "I want to sell and exit" (by decide)).1

/-- Claim C6: each submission invocation issues exactly one request (no
retry), and on a non-success response or transport failure the state carries
the generic static error message with loading cleared while the answer map
and the stored analysis result are left unchanged. -/
theorem c6_submission (w : Wizard) (payload : AnswerMap)
    (res : FetchResult) :
    (submitCaseWithAnswer w payload res).submitted
        = w.submitted ++ [payload]
    ∧ (submitCase w res).submitted = w.submitted ++ [w.answers]
    ∧ (res.isFailure = true →
        (submitCaseWithAnswer w payload res).error = some failureMessage
        ∧ (submitCaseWithAnswer w payload res).isAnalyzing = false
        ∧ (submitCaseWithAnswer w payload res).answers = w.answers
        ∧ (submitCaseWithAnswer w payload res).analysisResult
            = w.analysisResult
        ∧ (submitCase w res).error = some failureMessage
        ∧ (submitCase w res).isAnalyzing = false
        ∧ (submitCase w res).answers = w.answers) := by
  cases res with
  | ok r =>
    refine ⟨rfl, rfl, fun hf => ?_⟩
    exact absurd hf (by simp [FetchResult.isFailure])
  | httpError =>
    exact ⟨rfl, rfl, fun _ => ⟨rfl, rfl, rfl, rfl, rfl, rfl, rfl⟩⟩
  | transportError =>
    exact ⟨rfl, rfl, fun _ => ⟨rfl, rfl, rfl, rfl, rfl, rfl, rfl⟩⟩

/-- Witness for `c6_submission` on a failing response. -/
theorem c6_witness :
    (submitCase { initialWizard with
        answers := [("location", Answer.single "Delhi")] }
      FetchResult.httpError).error = some failureMessage
    ∧ (submitCase { initialWizard with
        answers := [("location", Answer.single "Delhi")] }
      FetchResult.httpError).answers
        = [("location", Answer.single "Delhi")] :=
  ⟨((c6_submission { initialWizard with
      answers := [("location", Answer.single "Delhi")] } []
      FetchResult.httpError).2.2 (by decide)).2.2.2.2.1,
   ((c6_submission { initialWizard with
      answers := [("location", Answer.single "Delhi")] } []
      FetchResult.httpError).2.2 (by decide)).2.2.2.2.2.2⟩

/-- Claim C7 (code bug evaluated): after a succeeded submission, Start New
Case clears the result, the index and the answers, but `isAnalyzing` is still
true because the success path never resets it, so the component renders the
loading view rather than the interactive question form. -/
theorem c7_reset_shows_loading :
    (startNewCase e2eSucceededState).answers = []
    ∧ (startNewCase e2eSucceededState).currentQuestion = 0
    ∧ (startNewCase e2eSucceededState).analysisResult = none
    ∧ (startNewCase e2eSucceededState).isAnalyzing = true
    ∧ render (startNewCase e2eSucceededState) = .analyzing
    ∧ render (startNewCase e2eSucceededState) ≠ .questions := by decide

/-- Claim C8 fails as stated: the question catalog has 12 questions, not 11. -/
theorem c8_counterexample :
    QUESTIONS.length = 12 ∧ QUESTIONS.length ≠ 11 := by decide

/-- Claim C8 (amended): answering all 12 questions of the catalog, submitting,
and receiving a 200 response whose severity_tier is `"Level 8"` yields a
critical severity badge in both the interactive results view and the
printable report. -/
theorem c8_amended :
    QUESTIONS.length = 12
    ∧ e2eSubmittedState.answers.length = 12
    ∧ e2eSubmittedState.submitted.length = 1
    ∧ e2eSubmittedState.isAnalyzing = true
    ∧ render e2eSucceededState = .results
    ∧ e2eSucceededState.analysisResult.map
        (fun r => resultsSeverityBadge r.case_analysis.severity_tier)
        = some .critical
    ∧ e2eSucceededState.analysisResult.map
        (fun r => reportSeverityClass r.case_analysis.severity_tier)
        = some "severity-critical" := by decide

/-- Claim C9: a single-select on a non-last question schedules a one-shot
auto-advance that no navigation cancels (back, next and reset all preserve
the pending queue), and firing it sets the question index to one past the
index captured at scheduling time, whatever the state at fire time. -/
theorem c9_auto_advance (w w2 w3 : Wizard) (q : Question) (value : String)
    (hq : QUESTIONS.get? w.currentQuestion = some q)
    (ht : q.qtype = QType.select)
    (hi : w.currentQuestion < QUESTIONS.length - 1) :
    (handleSelect w value).pending
        = w.pending ++
            [Pending.autoAdvance w.currentQuestion w.answers value q.id]
    ∧ (fireAuto w2
        (Pending.autoAdvance w.currentQuestion w.answers value
          q.id)).currentQuestion = w.currentQuestion + 1
    ∧ (fireAuto w2
        (Pending.autoAdvance w.currentQuestion w.answers value
          q.id)).answers = w2.answers
    ∧ (handleBack w3).pending = w3.pending
    ∧ (handleNext w3).pending = w3.pending
    ∧ (startNewCase w3).pending = w3.pending := by
  refine ⟨?_, ?_, ?_, ?_, ?_, ?_⟩
  · rw [List.get?_eq_getElem?] at hq
    simp [handleSelect, hq, ht]
  · unfold fireAuto
    simp [hi]
  · unfold fireAuto
    simp [hi]
  · unfold handleBack
    split <;> rfl
  · unfold handleNext submitStart
    split <;> rfl
  · rfl

/-- Witness for `c9_auto_advance`: the callback scheduled at index 0 moves the
index to 1 even though the user has navigated to index 5 meanwhile. -/
theorem c9_witness :
    (fireAuto
      { initialWizard with currentQuestion := 5 }
      (Pending.autoAdvance 0 [] "Delhi" "location")).currentQuestion = 1 :=
  (c9_auto_advance initialWizard
    { initialWizard with currentQuestion := 5 } initialWizard
    (QUESTIONS.get ⟨0, by decide⟩) "Delhi" (by decide) (by decide)
    (by decide)).2.1

/-- Claim C10: severity parsing is a total substring search: it succeeds
exactly when `"Level "` followed by at least one digit occurs anywhere in the
tier string, takes all consecutive digits (`"Level 10"` parses as 10 and
classifies critical rather than defaulting), and the level-5 moderate default
applies both when no such substring exists and when the severity_tier field
is absent entirely. -/
theorem c10_parse_total :
    (∀ s : String, (levelMatch s.data).isSome = true ↔
      ∃ d, isDigit d = true ∧ containsL s.data (lvlPat ++ [d]) = true)
    ∧ severityLevelOf (some "Level 10") = 10
    ∧ resultsSeverityBadge (some "Level 10") = .critical
    ∧ severityLevelOf (some "Case tier: Level 12 of 12") = 12
    ∧ severityLevelOf none = 5
    ∧ resultsSeverityBadge none = .moderate
    ∧ (∀ s : String, levelMatch s.data = none →
        severityLevelOf (some s) = 5
        ∧ resultsSeverityBadge (some s) = .moderate) := by
  refine ⟨fun s => levelMatch_contains s.data, by decide, by decide,
    by decide, rfl, by decide, ?_⟩
  intro s h
  exact ⟨by simp [severityLevelOf, h],
    by simp [resultsSeverityBadge, severityLevelOf, h]⟩

/-- Witness for `c10_parse_total` at concrete inputs. -/
theorem c10_witness :
    ((levelMatch "Tier Level 42!".data).isSome = true
      ↔ ∃ d, isDigit d = true
          ∧ containsL "Tier Level 42!".data (lvlPat ++ [d]) = true)
    ∧ severityLevelOf (some "no level here") = 5 :=
  ⟨c10_parse_total.1 "Tier Level 42!",
   (c10_parse_total.2.2.2.2.2.2 "no level here" (by decide)).1⟩
